import Mathlib

/-!
# Verification of the Glowy Tanks simulation core

Shallow embedding of the authoritative game server and of the client
prediction/reconciliation module of the Glowy Tanks repository
(source file `src/unnamed/part_000`).  JavaScript numbers are modelled
as real numbers; timestamps (`Date.now()` values, millisecond
integers) and input sequence numbers are modelled as naturals.
Stateful handlers are modelled as pure functions from the pre-state
(plus the oracle values drawn from `Math.random()`) to the post-state
together with the list of events emitted on the socket.
-/

noncomputable section

/-! ## Constants (source lines 46-75) -/

def MAP_WIDTH : ℝ := 1000
def MAP_HEIGHT : ℝ := 720
def TANK_MAX_SPEED : ℝ := 60
def TANK_ACCELERATION : ℝ := 600
def TANK_DECELERATION : ℝ := 900
def BULLET_SPEED : ℝ := 300
def BULLET_DAMAGE : ℝ := 20
def SHOOT_COOLDOWN : ℕ := 1500
def RAPID_FIRE_COOLDOWN : ℕ := 400
def MAX_HP : ℝ := 100
def RESPAWN_TIME : ℕ := 3000
def POWER_UP_LIFETIME : ℕ := 30000
def POWER_UP_RADIUS : ℝ := 30

/-- Constant `TANK_RADIUS` as bound locally inside `applyInput` (source line 561). -/
def TANK_RADIUS : ℝ := 20

/-- Constant `TANK_RADIUS` as bound locally inside the game loop's collision pass
(source line 610); distinct from the `applyInput` one. -/
def COLLISION_TANK_RADIUS : ℝ := 25

/-- Constant `TANK_RADIUS_SQ` of the collision pass (source line 614). -/
def TANK_RADIUS_SQ : ℝ := COLLISION_TANK_RADIUS * COLLISION_TANK_RADIUS

def MAX_BOUNCES : ℕ := 3

/-- Constant `bulletMaxAge` (source line 611). -/
def BULLET_MAX_AGE : ℕ := 10000

/-- The five power-up type keys of `POWER_UP_TYPES` (source lines 69-75),
in `Object.keys` order. -/
inductive PowerUpKind where
  | SPEED
  | RAPID_FIRE
  | SHIELD
  | DAMAGE_BOOST
  | HEALTH_PACK
deriving DecidableEq, Repr

/-- Table `POWER_UP_TYPES[k].duration` (source lines 69-75). -/
def puDuration : PowerUpKind → ℕ
  | .SPEED => 5000
  | .RAPID_FIRE => 5000
  | .SHIELD => 5000
  | .DAMAGE_BOOST => 10000
  | .HEALTH_PACK => 0

/-- Table `POWER_UP_TYPES[k].name` (client-friendly tag). -/
def puName : PowerUpKind → String
  | .SPEED => "speed"
  | .RAPID_FIRE => "rapidFire"
  | .SHIELD => "shield"
  | .DAMAGE_BOOST => "damageBoost"
  | .HEALTH_PACK => "healthPack"

def SPEED_MULTIPLIER : ℝ := 2
def DAMAGE_BOOST_MULTIPLIER : ℝ := 3 / 2
def RAPID_FIRE_SHOTS : ℕ := 3
def RAPID_FIRE_SPREAD : ℝ := 12 / 100
def HEALTH_PACK_VALUE : ℝ := 50

/-- JavaScript `a || b` on numeric timestamps/durations: fall back to `b`
when `a` is falsy (i.e. `0`). -/
def jsOr (a b : ℕ) : ℕ := if a = 0 then b else a

/-- JavaScript `a || b` on real numbers. -/
def jsOrR (a b : ℝ) : ℝ := if a = 0 then b else a

/-! ## Data model -/

/-- The four movement flags carried in `input.inputs` (w/s/a/d). -/
structure Flags where
  w : Bool
  s : Bool
  a : Bool
  d : Bool
deriving DecidableEq, Repr

/-- One input sample as produced by the client (source lines 3670-3677):
`{ seq, inputs, rotation, turretRotation, dt }`.  Well-formed samples
always carry numeric `rotation`/`turretRotation`/`seq`, so the server's
`typeof ... === 'number'` guards (source lines 579-587) always pass. -/
structure Input where
  inputs : Flags
  dt : ℝ
  rotation : ℝ
  turretRotation : ℝ
  seq : ℕ

/-- A server-side player (object literal at source lines 227-253 / 412-439). -/
@[ext]
structure Player where
  id : String
  x : ℝ
  y : ℝ
  vx : ℝ
  vy : ℝ
  rotation : ℝ
  turretRotation : ℝ
  name : String
  color : String
  hp : ℝ
  dead : Bool
  respawnTime : ℕ
  speedBoost : Bool
  speedBoostExpireTime : Option ℕ
  rapidFire : Bool
  rapidFireExpireTime : Option ℕ
  shield : Bool
  shieldExpireTime : Option ℕ
  damageBoost : Bool
  damageBoostExpireTime : Option ℕ
  lastShotTime : ℕ
  invulnerable : Bool
  invulnerableExpireTime : Option ℕ
  lastProcessedInput : ℕ
  inputQueue : List Input

/-- A bullet (object literal at source lines 322-332). -/
@[ext]
structure Bullet where
  x : ℝ
  y : ℝ
  vx : ℝ
  vy : ℝ
  angle : ℝ
  owner : String
  color : String
  createdAt : ℕ
  bounces : ℕ

/-- A power-up (object literal at source lines 138-145). -/
structure PowerUp where
  id : ℝ
  type : PowerUpKind
  uiType : String
  x : ℝ
  y : ℝ
  createdAt : ℕ

/-- A chat log entry (source lines 191-196). -/
structure ChatMsg where
  playerId : Option String
  text : String
  timestamp : ℕ
  system : Bool

/-- A room / game (object literal at source lines 395-404).  The
JavaScript objects keyed by player id are modelled as association
lists; `cleanupTimer` is modelled as the flag "a cleanup timer is
pending". -/
structure Game where
  id : String
  name : String
  mapType : String
  players : List (String × Player)
  bullets : List Bullet
  powerUps : List PowerUp
  scores : List (String × ℕ)
  chat : List ChatMsg
  cleanupTimer : Bool

/-! ## Physics Integrator — server `applyInput` (source lines 504-588) -/

/-- Expression `input.dt || 1 / 60` (source line 507). -/
def dtOf (i : Input) : ℝ := jsOrR i.dt (1 / 60)

/-- Target direction accumulated from the movement flags
(source lines 510-517). -/
def targetDir (f : Flags) : ℝ × ℝ :=
  let targetVx : ℝ := 0
  let targetVy : ℝ := 0
  let targetVy := if f.w then targetVy - 1 else targetVy
  let targetVy := if f.s then targetVy + 1 else targetVy
  let targetVx := if f.a then targetVx - 1 else targetVx
  let targetVx := if f.d then targetVx + 1 else targetVx
  (targetVx, targetVy)

/-- Value `inputMagnitude = Math.sqrt(targetVx*targetVx + targetVy*targetVy)`
(source line 520). -/
def inputMag (f : Flags) : ℝ :=
  Real.sqrt ((targetDir f).1 * (targetDir f).1 + (targetDir f).2 * (targetDir f).2)

/-- The player's current max speed: base speed, doubled while the speed
boost is active (source lines 527-530). -/
def maxSpeedOf (p : Player) : ℝ :=
  if p.speedBoost then TANK_MAX_SPEED * SPEED_MULTIPLIER else TANK_MAX_SPEED

/-- The target velocity: flag direction, normalized when its magnitude is
positive, scaled by the max speed (source lines 519-534). -/
def targetVel (p : Player) (f : Flags) : ℝ × ℝ :=
  let d := targetDir f
  let m := inputMag f
  let n := if m > 0 then (d.1 / m, d.2 / m) else d
  (n.1 * maxSpeedOf p, n.2 * maxSpeedOf p)

/-- The velocity after moving the current velocity toward the target
by at most `acceleration * dt` per axis (source lines 536-554).
`Real.sign` agrees with `Math.sign` (`-1`/`0`/`1`). -/
def applyVel (p : Player) (i : Input) : ℝ × ℝ :=
  let dt := dtOf i
  let t := targetVel p i.inputs
  let acceleration :=
    if inputMag i.inputs > 0 then TANK_ACCELERATION else TANK_DECELERATION
  let vxDiff := t.1 - p.vx
  let vyDiff := t.2 - p.vy
  let accelAmount := acceleration * dt
  ((if |vxDiff| < accelAmount then t.1 else p.vx + Real.sign vxDiff * accelAmount),
   (if |vyDiff| < accelAmount then t.2 else p.vy + Real.sign vyDiff * accelAmount))

/-- One axis of the boundary clamp (source lines 560-576): positions are
clamped into `[TANK_RADIUS, bound - TANK_RADIUS]` and the velocity
component pushing past the clamped wall is stopped
(`Math.max(0, v)` / `Math.min(0, v)`). -/
def clampAxis (bound : ℝ) (x vx : ℝ) : ℝ × ℝ :=
  if x < TANK_RADIUS then (TANK_RADIUS, max 0 vx)
  else if x > bound - TANK_RADIUS then (bound - TANK_RADIUS, min 0 vx)
  else (x, vx)

/-- The position reached before the boundary clamp
(source lines 556-558). -/
def rawPos (p : Player) (i : Input) : ℝ × ℝ :=
  (p.x + (applyVel p i).1 * dtOf i, p.y + (applyVel p i).2 * dtOf i)

/-- Server `applyInput` (source lines 504-588).  The
`!player || !input || !input.inputs` guard is vacuous for structured
inputs and the `typeof` guards always pass on well-formed samples. -/
def applyInput (p : Player) (i : Input) : Player :=
  let v := applyVel p i
  let r := rawPos p i
  let cx := clampAxis MAP_WIDTH r.1 v.1
  let cy := clampAxis MAP_HEIGHT r.2 v.2
  { p with
    x := cx.1, y := cy.1, vx := cx.2, vy := cy.2,
    rotation := i.rotation, turretRotation := i.turretRotation,
    lastProcessedInput := i.seq }

/-! ## Power-Up Manager — `applyPowerUp` (source lines 150-184) and
`spawnPowerUp` (source lines 130-148) -/

/-- Function `applyPowerUp`, the switch on the (normalized) type key
(source lines 159-183).  The room/player lookup guard of the caller is
handled at the call sites; this is the per-player core. -/
def applyPowerUp (now : ℕ) (ty : PowerUpKind) (p : Player) : Player :=
  match ty with
  | .HEALTH_PACK => { p with hp := min MAX_HP (p.hp + HEALTH_PACK_VALUE) }
  | .SPEED =>
      { p with speedBoost := true,
               speedBoostExpireTime := some (now + jsOr (puDuration .SPEED) 10000) }
  | .RAPID_FIRE =>
      { p with rapidFire := true,
               rapidFireExpireTime := some (now + jsOr (puDuration .RAPID_FIRE) 10000) }
  | .SHIELD =>
      { p with shield := true,
               shieldExpireTime := some (now + jsOr (puDuration .SHIELD) 10000) }
  | .DAMAGE_BOOST =>
      { p with damageBoost := true,
               damageBoostExpireTime := some (now + jsOr (puDuration .DAMAGE_BOOST) 10000) }

/-- List `Object.keys(POWER_UP_TYPES)` in declaration order (source line 135). -/
def POWER_UP_KEYS : List PowerUpKind :=
  [.SPEED, .RAPID_FIRE, .SHIELD, .DAMAGE_BOOST, .HEALTH_PACK]

/-- The morally random draws consumed by `spawnPowerUp`: each `rK` stands
for one `Math.random()` call, so a run of the program supplies values in
`[0, 1)`. -/
structure SpawnOracle where
  rType : ℝ
  rX : ℝ
  rY : ℝ
  rId : ℝ

/-- Function `spawnPowerUp` (source lines 130-148): a uniformly random type key and
a random position `Math.random() * (bound - 40) + 20` on each axis. -/
def spawnPowerUp (now : ℕ) (o : SpawnOracle) : PowerUp :=
  let types := POWER_UP_KEYS
  let randomType := types.getD (⌊o.rType * (types.length : ℝ)⌋).toNat .SPEED
  { id := (now : ℝ) + o.rId,
    type := randomType,
    uiType := puName randomType,
    x := o.rX * (MAP_WIDTH - 40) + 20,
    y := o.rY * (MAP_HEIGHT - 40) + 20,
    createdAt := now }

/-- The per-tick spawn check (source lines 596-604): when more than
7000 ms elapsed since the room's last spawn, the spawn clock is reset to
`now` and — only if the room holds fewer than 6 power-ups — one power-up
is spawned.  Returns the updated room and spawn clock. -/
def spawnTick (now last : ℕ) (g : Game) (o : SpawnOracle) : Game × ℕ :=
  if 7000 < now - last then
    if g.powerUps.length < 6 then
      ({ g with powerUps := g.powerUps ++ [spawnPowerUp now o] }, now)
    else (g, now)
  else (g, last)

/-! ## Collision Resolver (game loop, source lines 606-732) -/

/-- Continuous collision test of one bullet against one player: squared
distance at the current position or at the next position under the
planned move (source lines 627-639). -/
def bulletHits (b : Bullet) (t : Player) : Prop :=
  let dx := t.x - b.x
  let dy := t.y - b.y
  let distSq := dx * dx + dy * dy
  let nextX := b.x + b.vx
  let nextY := b.y + b.vy
  let nextDx := t.x - nextX
  let nextDy := t.y - nextY
  let nextDistSq := nextDx * nextDx + nextDy * nextDy
  distSq < TANK_RADIUS_SQ ∨ nextDistSq < TANK_RADIUS_SQ

instance (b : Bullet) (t : Player) : Decidable (bulletHits b t) := by
  unfold bulletHits; infer_instance

/-- The first player hit by a bullet while scanning `game.players`
(source lines 622-639):  the bullet's owner, dead players and
invulnerable players are skipped. -/
def findTarget (b : Bullet) : List (String × Player) → Option (String × Player)
  | [] => none
  | (pid, t) :: rest =>
    if pid ≠ b.owner ∧ t.dead = false ∧ t.invulnerable = false ∧ bulletHits b t then
      some (pid, t)
    else findTarget b rest

/-- Damage computation on a hit (source lines 641-649): base damage,
floored 1.5x under the shooter's damage boost, zeroed entirely by the
target's shield.  The shooter is looked up in the room and may be
absent. -/
def damageCalc (shooter : Option Player) (t : Player) : ℝ :=
  let damage := BULLET_DAMAGE
  let damage :=
    match shooter with
    | some sh => if sh.damageBoost then ((⌊damage * DAMAGE_BOOST_MULTIPLIER⌋ : ℤ) : ℝ)
                 else damage
    | none => damage
  if t.shield then 0 else damage

/-- Increment `game.scores[owner]++` on an association list. -/
def bumpScore (owner : String) (scores : List (String × ℕ)) : List (String × ℕ) :=
  scores.map (fun e => if e.1 = owner then (e.1, e.2 + 1) else e)

/-- Hit resolution (source lines 641-658): subtract the damage from the
target's hp with a floor at 0; at 0 hp mark the target dead, schedule
its respawn and increment the shooter's score if the shooter still has a
score entry.  Returns the updated target and score table. -/
def resolveHit (now : ℕ) (g : Game) (b : Bullet) (t : Player) :
    Player × List (String × ℕ) :=
  let damage := damageCalc (g.players.lookup b.owner) t
  let hp2 := max 0 (t.hp - damage)
  if hp2 ≤ 0 then
    ({ t with hp := hp2, dead := true, respawnTime := now + RESPAWN_TIME },
     if (g.scores.lookup b.owner).isSome then bumpScore b.owner g.scores else g.scores)
  else
    ({ t with hp := hp2 }, g.scores)

/-- The x-axis wall clause for a moved bullet (source lines 684-701):
reflect, clamp and count the bounce below the cap; remove the bullet at
the cap.  The second component records whether a bounce happened. -/
def wallX (b : Bullet) : Option (Bullet × Bool) :=
  if b.x < 0 ∨ b.x > MAP_WIDTH then
    if b.bounces < MAX_BOUNCES then
      some ({ b with vx := -b.vx, x := max 0 (min MAP_WIDTH b.x),
                     bounces := b.bounces + 1 }, true)
    else none
  else some (b, false)

/-- The y-axis wall clause (source lines 703-720). -/
def wallY (b : Bullet) : Option (Bullet × Bool) :=
  if b.y < 0 ∨ b.y > MAP_HEIGHT then
    if b.bounces < MAX_BOUNCES then
      some ({ b with vy := -b.vy, y := max 0 (min MAP_HEIGHT b.y),
                     bounces := b.bounces + 1 }, true)
    else none
  else some (b, false)

/-- Advancing one bullet that scored no hit this tick
(source lines 676-731): move by the velocity, run both wall clauses in
order (each may remove the bullet), refresh the angle after a bounce,
and evict the bullet when its age exceeds `BULLET_MAX_AGE`.
`Math.atan2(vy, vx)` is `Complex.arg ⟨vx, vy⟩`.  `none` means the bullet
was removed. -/
def updateBullet (now : ℕ) (b0 : Bullet) : Option Bullet :=
  let b := { b0 with x := b0.x + b0.vx, y := b0.y + b0.vy }
  match wallX b with
  | none => none
  | some (b1, bounced1) =>
    match wallY b1 with
    | none => none
    | some (b2, bounced2) =>
      let b3 := if bounced1 || bounced2 then
                  { b2 with angle := Complex.arg ⟨b2.vx, b2.vy⟩ }
                else b2
      if b3.createdAt ≠ 0 ∧ ¬(now - b3.createdAt < BULLET_MAX_AGE) then none
      else some b3

/-- The bullets created by one accepted shoot request
(source lines 312-333): 1 shot, or 3 spread shots under rapid fire, each
with `bounces: 0`. -/
def mkShotBullets (now : ℕ) (sockId : String) (p : Player) (angle : ℝ) :
    List Bullet :=
  let shots := if p.rapidFire then jsOr RAPID_FIRE_SHOTS 3 else 1
  let spread := jsOrR RAPID_FIRE_SPREAD (1 / 10)
  (List.range shots).map (fun i =>
    let offset : ℝ :=
      if shots = 1 then 0 else ((i : ℝ) - ((shots : ℝ) - 1) / 2) * spread
    let a := angle + offset
    let dt : ℝ := 1 / 60
    { x := p.x, y := p.y,
      vx := Real.cos a * BULLET_SPEED * dt,
      vy := Real.sin a * BULLET_SPEED * dt,
      angle := a, owner := sockId, color := p.color,
      createdAt := now, bounces := 0 })

/-! ## Respawn pass (source lines 752-768) and player creation -/

/-- The respawn clause of the per-player pass: a dead player whose
(truthy) respawn timestamp has elapsed is moved to a random spawn with
full hp, zero velocity and a 3 s invulnerability window.  `rx`/`ry` are
the `Math.random()` draws of `getRandomSpawn` (source lines 77-81). -/
def respawnUpdate (now : ℕ) (rx ry : ℝ) (p : Player) : Player :=
  if p.dead = true ∧ p.respawnTime ≠ 0 ∧ p.respawnTime < now then
    { p with x := rx * (MAP_WIDTH - 40) + 20,
             y := ry * (MAP_HEIGHT - 40) + 20,
             vx := 0, vy := 0, hp := MAX_HP, dead := false,
             lastShotTime := 0, invulnerable := true,
             invulnerableExpireTime := some (now + 3000) }
  else p

/-- The fresh player object built on `join`/`host`
(source lines 227-253 and 412-439); both sites initialize the same
fields, with `hp: MAX_HP`. -/
def mkNewPlayer (sockId : String) (rx ry : ℝ) (safeName color : String) : Player :=
  { id := sockId,
    x := rx * (MAP_WIDTH - 40) + 20,
    y := ry * (MAP_HEIGHT - 40) + 20,
    vx := 0, vy := 0, rotation := 0, turretRotation := 0,
    name := safeName, color := color,
    hp := MAX_HP, dead := false, respawnTime := 0,
    speedBoost := false, speedBoostExpireTime := none,
    rapidFire := false, rapidFireExpireTime := none,
    shield := false, shieldExpireTime := none,
    damageBoost := false, damageBoostExpireTime := none,
    lastShotTime := 0, invulnerable := false, invulnerableExpireTime := none,
    lastProcessedInput := 0, inputQueue := [] }

/-! ## Socket handlers (source lines 202-496) -/

/-- Events emitted on the network channel; only the constructors the
embedded handlers can emit. -/
inductive SEvent where
  | errorEv (msg : String)
  | joinAck (sockId gameId name color : String)
  | playerName (sockId name : String)
  | chatMessage (playerId : Option String) (text : String)
deriving DecidableEq, Repr

/-- ASCII approximation of the JavaScript `\s` class used by
`sanitizeString`. -/
def isJsWs (c : Char) : Bool :=
  c = ' ' || c = '\t' || c = '\n' || c.val = 13 || c.val = 12 || c.val = 11

/-- Collapse maximal whitespace runs to a single space
(`.replace(/\s+/g, " ")`, source line 104). -/
def collapseWs : List Char → Bool → List Char
  | [], _ => []
  | c :: rest, prevWs =>
    if isJsWs c then
      if prevWs then collapseWs rest true else ' ' :: collapseWs rest true
    else c :: collapseWs rest false

/-- Function `sanitizeString` (source lines 99-107): trim, collapse whitespace,
strip control characters, truncate to `NAME_MAX = 20`. -/
def sanitizeString (name : String) : String :=
  let s := name.trim
  if s = "" then "" else
  let s := String.mk (collapseWs s.data false)
  let s := String.mk (s.data.filter (fun c => ¬ c.val < 32))
  if s.length > 20 then String.mk (s.data.take 20) else s

/-- Set a key of an object modelled as an association list
(`obj[k] = v`). -/
def assocSet {α : Type} (k : String) (v : α) (l : List (String × α)) :
    List (String × α) :=
  if (l.lookup k).isSome then
    l.map (fun e => if e.1 = k then (k, v) else e)
  else l ++ [(k, v)]

/-- Function `pushChatMessage`, its core (source lines 186-200): append and cap the log
at `CHAT_MAX_MESSAGES = 60` by dropping the oldest entry. -/
def pushChat (log : List ChatMsg) (m : ChatMsg) : List ChatMsg :=
  let log := log ++ [m]
  if log.length > 60 then log.drop 1 else log

/-- The payload of a `join` request. -/
structure JoinReq where
  serverId : String
  name : String

/-- Handler `socket.on("join")` (source lines 203-276): reject a missing/falsy
`serverId` with an error event, reject an unknown room with an error
event, otherwise cancel a pending cleanup timer and insert the new
player.  `rx`/`ry` are the random spawn draws and `color` the random
color pick. -/
def joinHandler (games : List (String × Game)) (sockId : String)
    (data : Option JoinReq) (rx ry : ℝ) (color : String) (now : ℕ) :
    List (String × Game) × List SEvent :=
  match data with
  | none => (games, [SEvent.errorEv "Missing serverId"])
  | some d =>
    if d.serverId = "" then (games, [SEvent.errorEv "Missing serverId"])
    else
      match games.lookup d.serverId with
      | none => (games, [SEvent.errorEv "Game not found"])
      | some g =>
        let g := { g with cleanupTimer := false }
        let safeName := sanitizeString d.name
        let p := mkNewPlayer sockId rx ry safeName color
        let joinedText :=
          (if safeName = "" then "A player" else safeName) ++ " joined the game."
        let g := { g with
          players := assocSet sockId p g.players,
          scores := assocSet sockId 0 g.scores,
          chat := pushChat g.chat ⟨none, joinedText, now, true⟩ }
        (assocSet d.serverId g games,
         [SEvent.playerName sockId safeName,
          SEvent.joinAck sockId d.serverId safeName color])

/-- Handler `socket.on("input")` (source lines 278-291): silently ignore unknown
rooms and absent players; otherwise append the batch to the player's
input queue, keeping only the last 120 entries whenever the queue
exceeds 180.  Emits nothing. -/
def inputHandler (games : List (String × Game)) (sockGameId : Option String)
    (sockId : String) (inputs : Option (List Input)) : List (String × Game) :=
  match sockGameId with
  | none => games
  | some gid =>
    match games.lookup gid with
    | none => games
    | some g =>
      match g.players.lookup sockId with
      | none => games
      | some p =>
        match inputs with
        | none => games
        | some batch =>
          let q := p.inputQueue ++ batch
          let q := if q.length > 180 then q.drop (q.length - 120) else q
          assocSet gid
            { g with players := assocSet sockId { p with inputQueue := q } g.players }
            games

/-- Handler `socket.on("shoot")` (source lines 293-336): silently ignore unknown
rooms, absent or dead players and cooldown violations; otherwise push
the shot bullets and stamp `lastShotTime`.  Emits nothing. -/
def shootHandler (games : List (String × Game)) (sockGameId : Option String)
    (sockId : String) (angle : ℝ) (now : ℕ) : List (String × Game) :=
  match sockGameId with
  | none => games
  | some gid =>
    match games.lookup gid with
    | none => games
    | some g =>
      match g.players.lookup sockId with
      | none => games
      | some p =>
        if p.dead then games
        else
          let cooldown := if p.rapidFire then RAPID_FIRE_COOLDOWN else SHOOT_COOLDOWN
          if now - p.lastShotTime < cooldown then games
          else
            assocSet gid
              { g with
                bullets := g.bullets ++ mkShotBullets now sockId p angle,
                players := assocSet sockId { p with lastShotTime := now } g.players }
              games

/-- Handler `socket.on("chat:message")` (source lines 338-361): silently ignore
unknown rooms and absent players, and empty sanitized texts; otherwise
log and broadcast the message. -/
def chatHandler (games : List (String × Game)) (sockGameId : Option String)
    (sockId : String) (text : String) (now : ℕ) :
    List (String × Game) × List SEvent :=
  match sockGameId with
  | none => (games, [])
  | some gid =>
    match games.lookup gid with
    | none => (games, [])
    | some g =>
      match g.players.lookup sockId with
      | none => (games, [])
      | some _ =>
        let sanitized := String.mk ((sanitizeString text).data.take 200)
        if sanitized = "" then (games, [])
        else
          (assocSet gid
            { g with chat := pushChat g.chat ⟨some sockId, sanitized, now, false⟩ }
            games,
           [SEvent.chatMessage (some sockId) sanitized])

/-- Predicate for "the operation references a nonexistent room, or a player not present
in their claimed room": the failure precondition of claim C8. -/
def noSuchPlayer (games : List (String × Game)) (sockGameId : Option String)
    (sockId : String) : Prop :=
  match sockGameId with
  | none => True
  | some gid =>
    match games.lookup gid with
    | none => True
    | some g => g.players.lookup sockId = none

/-! ## Client Prediction & Reconciliation (source lines 2856-2933 and
3396-3443) -/

/-- The client's predicted local player: the kinematic state plus the
effect flags the client predicts with. -/
@[ext]
structure CPlayer where
  x : ℝ
  y : ℝ
  vx : ℝ
  vy : ℝ
  rotation : ℝ
  turretRotation : ℝ
  speedBoost : Bool
  shield : Bool

/-- The per-player entry of a server snapshot consumed by the
reconciliation code (source lines 846-868). -/
structure ServerView where
  x : ℝ
  y : ℝ
  vx : ℝ
  vy : ℝ
  rotation : ℝ
  speedBoost : Bool
  shield : Bool
  lastProcessedInput : ℕ

/-- One prediction-history entry (source lines 3685-3695): the post-input
predicted state snapshot together with the input sample itself. -/
structure HEntry where
  x : ℝ
  y : ℝ
  vx : ℝ
  vy : ℝ
  rotation : ℝ
  turretRotation : ℝ
  seq : ℕ
  inputs : Flags
  dt : ℝ

/-- Client `applyInput` (source lines 2856-2933), the mirrored Physics
Integrator: identical to the server one except that the bounds come
from the canvas (set to `mapWidth`/`mapHeight` on join, source
lines 3330-3331), rotations are overwritten unconditionally, the speed
boost multiplier is the literal 2, and no sequence number is
recorded. -/
def clientApplyInput (p : CPlayer) (i : HEntry) : CPlayer :=
  let dt := jsOrR i.dt (1 / 60)
  let d := targetDir i.inputs
  let m := Real.sqrt (d.1 * d.1 + d.2 * d.2)
  let n := if m > 0 then (d.1 / m, d.2 / m) else d
  let maxSpeed := if p.speedBoost then TANK_MAX_SPEED * 2 else TANK_MAX_SPEED
  let t := (n.1 * maxSpeed, n.2 * maxSpeed)
  let acceleration := if m > 0 then TANK_ACCELERATION else TANK_DECELERATION
  let vxDiff := t.1 - p.vx
  let vyDiff := t.2 - p.vy
  let accelAmount := acceleration * dt
  let vx := if |vxDiff| < accelAmount then t.1 else p.vx + Real.sign vxDiff * accelAmount
  let vy := if |vyDiff| < accelAmount then t.2 else p.vy + Real.sign vyDiff * accelAmount
  let x := p.x + vx * dt
  let y := p.y + vy * dt
  let cx := clampAxis MAP_WIDTH x vx
  let cy := clampAxis MAP_HEIGHT y vy
  { p with x := cx.1, y := cy.1, vx := cx.2, vy := cy.2,
           rotation := i.rotation, turretRotation := i.turretRotation }

/-- The authoritative overwrite at the start of reconciliation
(source lines 3421-3428). -/
def authOverwrite (pred : CPlayer) (s : ServerView) : CPlayer :=
  { pred with x := s.x, y := s.y, vx := s.vx, vy := s.vy,
              rotation := s.rotation, speedBoost := s.speedBoost,
              shield := s.shield }

/-- The acknowledged-prefix removal loop (source lines 3430-3437):
`while (history.length > 0 && history[0].seq <= ack) history.shift()`. -/
def dropAcked (ack : ℕ) : List HEntry → List HEntry
  | [] => []
  | e :: rest => if e.seq ≤ ack then dropAcked ack rest else e :: rest

/-- Snapshot reconciliation for the local player
(source lines 3421-3442): overwrite with the authoritative state, drop
the acknowledged history prefix, replay the rest through the Physics
Integrator. -/
def reconcile (pred : CPlayer) (s : ServerView) (hist : List HEntry) : CPlayer :=
  (dropAcked (jsOr s.lastProcessedInput 0) hist).foldl clientApplyInput
    (authOverwrite pred s)

/-! ## Shared concrete sample states used by the witnesses -/

def samplePlayer : Player := mkNewPlayer "p1" (1 / 2) (1 / 2) "alice" "#4a90e2"

def sampleInput : Input :=
  { inputs := ⟨true, false, false, true⟩, dt := 1 / 60,
    rotation := 0, turretRotation := 0, seq := 13 }

def sampleEntry (n : ℕ) : HEntry :=
  { x := 0, y := 0, vx := 0, vy := 0, rotation := 0, turretRotation := 0,
    seq := n, inputs := ⟨true, false, false, false⟩, dt := 1 / 60 }

/-- A prediction history holding sequence numbers 10..15. -/
def sampleHist : List HEntry :=
  [sampleEntry 10, sampleEntry 11, sampleEntry 12,
   sampleEntry 13, sampleEntry 14, sampleEntry 15]

def samplePred : CPlayer := ⟨500, 360, 0, 0, 0, 0, false, false⟩

/-- A snapshot entry acknowledging sequence number 12. -/
def sampleServer : ServerView := ⟨400, 300, 0, 0, 0, false, false, 12⟩

/-! ## Helper lemmas -/

theorem jsOr_zero (n : ℕ) : jsOr n 0 = n := by
  unfold jsOr; split <;> simp_all

/-- On a history whose sequence numbers strictly increase, the shift
loop removes exactly the acknowledged entries. -/
theorem dropAcked_eq_filter (ack : ℕ) :
    ∀ l : List HEntry, l.Pairwise (fun a b => a.seq < b.seq) →
      dropAcked ack l = l.filter (fun e => ack < e.seq)
  | [], _ => rfl
  | e :: rest, h => by
    rcases List.pairwise_cons.mp h with ⟨hhead, htail⟩
    by_cases hle : e.seq ≤ ack
    · rw [dropAcked, if_pos hle, dropAcked_eq_filter ack rest htail,
        List.filter_cons_of_neg (by simpa using hle)]
    · rw [dropAcked, if_neg hle, List.filter_cons_of_pos (by simpa using Nat.lt_of_not_le hle)]
      rw [List.filter_eq_self.mpr]
      intro a ha
      have : ack < a.seq := Nat.lt_trans (Nat.lt_of_not_le hle) (hhead a ha)
      simpa using this

theorem clampAxis_bounds (bound x vx : ℝ) (h : TANK_RADIUS ≤ bound - TANK_RADIUS) :
    TANK_RADIUS ≤ (clampAxis bound x vx).1 ∧
      (clampAxis bound x vx).1 ≤ bound - TANK_RADIUS := by
  unfold clampAxis
  split
  · exact ⟨le_rfl, h⟩
  · split
    · exact ⟨h, le_rfl⟩
    · constructor
      · simp only []
        linarith [not_lt.mp (by assumption : ¬ x < TANK_RADIUS)]
      · simp only []
        linarith [not_lt.mp (by assumption : ¬ x > bound - TANK_RADIUS)]

theorem clampAxis_low (bound x vx : ℝ) (h : x < TANK_RADIUS) :
    clampAxis bound x vx = (TANK_RADIUS, max 0 vx) := by
  unfold clampAxis; rw [if_pos h]

theorem clampAxis_high (bound x vx : ℝ) (h1 : ¬ x < TANK_RADIUS)
    (h2 : x > bound - TANK_RADIUS) :
    clampAxis bound x vx = (bound - TANK_RADIUS, min 0 vx) := by
  unfold clampAxis; rw [if_neg h1, if_pos h2]

/-! ## Claim C1 -/

/-- C1: on receipt of a snapshot the client overwrites the local
player's predicted position, velocity and rotation with the server's
authoritative values, removes every history entry whose sequence number
is at most the server-acknowledged one (the history's sequence numbers
strictly increase, as produced by `sequenceNumber++`), and replays each
remaining entry in order through `applyInput`, so the predicted state
equals folding exactly the unacknowledged inputs over the authoritative
base. -/
theorem reconcile_replays_unacked (pred : CPlayer) (s : ServerView)
    (hist : List HEntry) (hsort : hist.Pairwise (fun a b => a.seq < b.seq)) :
    (authOverwrite pred s).x = s.x ∧ (authOverwrite pred s).y = s.y ∧
    (authOverwrite pred s).vx = s.vx ∧ (authOverwrite pred s).vy = s.vy ∧
    (authOverwrite pred s).rotation = s.rotation ∧
    reconcile pred s hist =
      (hist.filter (fun e => s.lastProcessedInput < e.seq)).foldl
        clientApplyInput (authOverwrite pred s) := by
  refine ⟨rfl, rfl, rfl, rfl, rfl, ?_⟩
  unfold reconcile
  rw [jsOr_zero, dropAcked_eq_filter _ _ hsort]

/-- Witness for C1 at the spec's end-to-end scenario: history 10..15,
server acknowledgment 12. -/
theorem reconcile_replays_unacked_witness :
    reconcile samplePred sampleServer sampleHist =
      (sampleHist.filter (fun e => sampleServer.lastProcessedInput < e.seq)).foldl
        clientApplyInput (authOverwrite samplePred sampleServer) :=
  (reconcile_replays_unacked samplePred sampleServer sampleHist
    (by simp [sampleHist, sampleEntry, List.pairwise_cons])).2.2.2.2.2

/-! ## Claim C2 -/

/-- C2: after every application of the server Physics Integrator the
player's position lies in `[TANK_RADIUS, MAP_WIDTH - TANK_RADIUS] ×
[TANK_RADIUS, MAP_HEIGHT - TANK_RADIUS]`, and whenever a coordinate is
clamped to a wall the velocity component pushing into that wall is
zeroed (`max 0 v` at a low wall, `min 0 v` at a high wall). -/
theorem applyInput_position_bounds (p : Player) (i : Input) :
    (TANK_RADIUS ≤ (applyInput p i).x ∧ (applyInput p i).x ≤ MAP_WIDTH - TANK_RADIUS) ∧
    (TANK_RADIUS ≤ (applyInput p i).y ∧ (applyInput p i).y ≤ MAP_HEIGHT - TANK_RADIUS) ∧
    ((rawPos p i).1 < TANK_RADIUS →
      (applyInput p i).vx = max 0 (applyVel p i).1) ∧
    ((rawPos p i).1 > MAP_WIDTH - TANK_RADIUS →
      (applyInput p i).vx = min 0 (applyVel p i).1) ∧
    ((rawPos p i).2 < TANK_RADIUS →
      (applyInput p i).vy = max 0 (applyVel p i).2) ∧
    ((rawPos p i).2 > MAP_HEIGHT - TANK_RADIUS →
      (applyInput p i).vy = min 0 (applyVel p i).2) := by
  have hw : TANK_RADIUS ≤ MAP_WIDTH - TANK_RADIUS := by
    norm_num [TANK_RADIUS, MAP_WIDTH]
  have hh : TANK_RADIUS ≤ MAP_HEIGHT - TANK_RADIUS := by
    norm_num [TANK_RADIUS, MAP_HEIGHT]
  have hx : (applyInput p i).x = (clampAxis MAP_WIDTH (rawPos p i).1 (applyVel p i).1).1 := rfl
  have hy : (applyInput p i).y = (clampAxis MAP_HEIGHT (rawPos p i).2 (applyVel p i).2).1 := rfl
  have hvx : (applyInput p i).vx = (clampAxis MAP_WIDTH (rawPos p i).1 (applyVel p i).1).2 := rfl
  have hvy : (applyInput p i).vy = (clampAxis MAP_HEIGHT (rawPos p i).2 (applyVel p i).2).2 := rfl
  refine ⟨?_, ?_, ?_, ?_, ?_, ?_⟩
  · rw [hx]; exact clampAxis_bounds _ _ _ hw
  · rw [hy]; exact clampAxis_bounds _ _ _ hh
  · intro hlow; rw [hvx, clampAxis_low _ _ _ hlow]
  · intro hhigh
    have hnl : ¬ (rawPos p i).1 < TANK_RADIUS := by
      push_neg; linarith
    rw [hvx, clampAxis_high _ _ _ hnl hhigh]
  · intro hlow; rw [hvy, clampAxis_low _ _ _ hlow]
  · intro hhigh
    have hnl : ¬ (rawPos p i).2 < TANK_RADIUS := by
      push_neg; linarith
    rw [hvy, clampAxis_high _ _ _ hnl hhigh]

/-- Witness for C2 at a concrete player and input sample. -/
theorem applyInput_position_bounds_witness :
    (TANK_RADIUS ≤ (applyInput samplePlayer sampleInput).x ∧
      (applyInput samplePlayer sampleInput).x ≤ MAP_WIDTH - TANK_RADIUS) ∧
    (TANK_RADIUS ≤ (applyInput samplePlayer sampleInput).y ∧
      (applyInput samplePlayer sampleInput).y ≤ MAP_HEIGHT - TANK_RADIUS) ∧
    ((rawPos samplePlayer sampleInput).1 < TANK_RADIUS →
      (applyInput samplePlayer sampleInput).vx
        = max 0 (applyVel samplePlayer sampleInput).1) ∧
    ((rawPos samplePlayer sampleInput).1 > MAP_WIDTH - TANK_RADIUS →
      (applyInput samplePlayer sampleInput).vx
        = min 0 (applyVel samplePlayer sampleInput).1) ∧
    ((rawPos samplePlayer sampleInput).2 < TANK_RADIUS →
      (applyInput samplePlayer sampleInput).vy
        = max 0 (applyVel samplePlayer sampleInput).2) ∧
    ((rawPos samplePlayer sampleInput).2 > MAP_HEIGHT - TANK_RADIUS →
      (applyInput samplePlayer sampleInput).vy
        = min 0 (applyVel samplePlayer sampleInput).2) :=
  applyInput_position_bounds samplePlayer sampleInput

/-! ## Claim C3 -/

/-- A bullet sitting on the sample victim, fired by another player. -/
def sampleBullet : Bullet :=
  { x := 500, y := 360, vx := 5, vy := 0, angle := 0, owner := "p2",
    color := "#ffff00", createdAt := 1000, bounces := 0 }

/-- The sample player with its shield flag active. -/
def sampleShielded : Player := { samplePlayer with shield := true }

def sampleGame : Game :=
  { id := "game_1", name := "g", mapType := "green",
    players := [], bullets := [], powerUps := [], scores := [],
    chat := [], cleanupTimer := false }

/-- C3: the collision pass never selects an invulnerable player as a
bullet's target, and when the chosen target has an active shield the
computed damage is zero so the target's hp is unchanged by the hit. -/
theorem collision_skips_invulnerable_and_shield_blocks :
    (∀ (b : Bullet) (ps : List (String × Player)) (pid : String) (t : Player),
       findTarget b ps = some (pid, t) → t.invulnerable = false) ∧
    (∀ (now : ℕ) (g : Game) (b : Bullet) (t : Player),
       t.shield = true → 0 ≤ t.hp → (resolveHit now g b t).1.hp = t.hp) := by
  constructor
  · intro b ps
    induction ps with
    | nil => intro pid t h; simp [findTarget] at h
    | cons e rest ih =>
      obtain ⟨pid0, t0⟩ := e
      intro pid t h
      rw [findTarget] at h
      split at h
      · simp only [Option.some.injEq, Prod.mk.injEq] at h
        obtain ⟨-, rfl⟩ := h
        exact (by assumption : _ ∧ _ ∧ _ ∧ _).2.2.1
      · exact ih pid t h
  · intro now g b t hsh hhp
    have hd : damageCalc (g.players.lookup b.owner) t = 0 := by
      unfold damageCalc
      simp [hsh]
    unfold resolveHit
    rw [hd]
    simp only [sub_zero, max_eq_right hhp]
    split <;> rfl

/-- Witness for C3: a non-invulnerable victim actually selected by
`findTarget`, and a shielded victim whose hp survives a hit. -/
theorem collision_skips_invulnerable_witness :
    samplePlayer.invulnerable = false ∧
    (resolveHit 1000 sampleGame sampleBullet sampleShielded).1.hp
      = sampleShielded.hp :=
  ⟨collision_skips_invulnerable_and_shield_blocks.1 sampleBullet
      [("p1", samplePlayer)] "p1" samplePlayer
      (by
        rw [findTarget, if_pos]
        refine ⟨by decide, by simp [samplePlayer, mkNewPlayer],
          by simp [samplePlayer, mkNewPlayer], Or.inl ?_⟩
        norm_num [bulletHits, samplePlayer, mkNewPlayer, sampleBullet,
          TANK_RADIUS_SQ, COLLISION_TANK_RADIUS, MAP_WIDTH, MAP_HEIGHT]),
   collision_skips_invulnerable_and_shield_blocks.2 1000 sampleGame
      sampleBullet sampleShielded
      (by simp [sampleShielded])
      (by norm_num [sampleShielded, samplePlayer, mkNewPlayer, MAX_HP])⟩

/-! ## Claim C4 -/

theorem damageCalc_nonneg (sh : Option Player) (t : Player) :
    0 ≤ damageCalc sh t := by
  unfold damageCalc
  dsimp only
  by_cases hs : t.shield
  · rw [if_pos hs]
  · rw [if_neg hs]
    rcases sh with _ | p
    · norm_num [BULLET_DAMAGE]
    · by_cases hb : p.damageBoost
      · simp only [hb, if_true]
        have : (0 : ℝ) ≤ BULLET_DAMAGE * DAMAGE_BOOST_MULTIPLIER := by
          norm_num [BULLET_DAMAGE, DAMAGE_BOOST_MULTIPLIER]
        exact_mod_cast Int.floor_nonneg.mpr this
      · simp only [hb, if_false]
        norm_num [BULLET_DAMAGE]

/-- C4: every operation keeps hp inside `[0, MAX_HP]`: bullet damage
subtracts with a floor at 0, HEALTH_PACK adds with a clamp at
`MAX_HP = 100`, respawn resets hp to `MAX_HP`, and the player object
built on join/host starts at `MAX_HP`. -/
theorem hp_stays_in_range :
    (∀ (now : ℕ) (g : Game) (b : Bullet) (t : Player),
       (resolveHit now g b t).1.hp
         = max 0 (t.hp - damageCalc (g.players.lookup b.owner) t)) ∧
    (∀ (now : ℕ) (g : Game) (b : Bullet) (t : Player),
       0 ≤ t.hp → t.hp ≤ MAX_HP →
       0 ≤ (resolveHit now g b t).1.hp ∧ (resolveHit now g b t).1.hp ≤ MAX_HP) ∧
    (∀ (now : ℕ) (p : Player),
       (applyPowerUp now .HEALTH_PACK p).hp = min MAX_HP (p.hp + HEALTH_PACK_VALUE)) ∧
    (∀ (now : ℕ) (ty : PowerUpKind) (p : Player),
       0 ≤ p.hp → p.hp ≤ MAX_HP →
       0 ≤ (applyPowerUp now ty p).hp ∧ (applyPowerUp now ty p).hp ≤ MAX_HP) ∧
    (∀ (now : ℕ) (rx ry : ℝ) (p : Player),
       p.dead = true → p.respawnTime ≠ 0 → p.respawnTime < now →
       (respawnUpdate now rx ry p).hp = MAX_HP) ∧
    (∀ (now : ℕ) (rx ry : ℝ) (p : Player),
       0 ≤ p.hp → p.hp ≤ MAX_HP →
       0 ≤ (respawnUpdate now rx ry p).hp ∧ (respawnUpdate now rx ry p).hp ≤ MAX_HP) ∧
    (∀ (sockId : String) (rx ry : ℝ) (nm col : String),
       (mkNewPlayer sockId rx ry nm col).hp = MAX_HP) := by
  have hhit : ∀ (now : ℕ) (g : Game) (b : Bullet) (t : Player),
      (resolveHit now g b t).1.hp
        = max 0 (t.hp - damageCalc (g.players.lookup b.owner) t) := by
    intro now g b t
    unfold resolveHit
    dsimp only
    split <;> rfl
  refine ⟨hhit, ?_, ?_, ?_, ?_, ?_, ?_⟩
  · intro now g b t h0 h1
    rw [hhit]
    constructor
    · exact le_max_left 0 _
    · refine max_le (by norm_num [MAX_HP]) ?_
      have := damageCalc_nonneg (g.players.lookup b.owner) t
      linarith
  · intro now p; rfl
  · intro now ty p h0 h1
    cases ty with
    | HEALTH_PACK =>
      refine ⟨?_, ?_⟩
      · show 0 ≤ min MAX_HP (p.hp + HEALTH_PACK_VALUE)
        refine le_min (by norm_num [MAX_HP]) (by norm_num [HEALTH_PACK_VALUE]; linarith)
      · exact min_le_left _ _
    | SPEED => exact ⟨h0, h1⟩
    | RAPID_FIRE => exact ⟨h0, h1⟩
    | SHIELD => exact ⟨h0, h1⟩
    | DAMAGE_BOOST => exact ⟨h0, h1⟩
  · intro now rx ry p hd hne hlt
    unfold respawnUpdate
    rw [if_pos ⟨hd, hne, hlt⟩]
  · intro now rx ry p h0 h1
    unfold respawnUpdate
    split
    · exact ⟨by norm_num [MAX_HP], le_rfl⟩
    · exact ⟨h0, h1⟩
  · intro sockId rx ry nm col; rfl

/-- Witness for C4: the hp bounds hold for the sample victim hit by the
sample bullet. -/
theorem hp_stays_in_range_witness :
    0 ≤ (resolveHit 1000 sampleGame sampleBullet samplePlayer).1.hp ∧
    (resolveHit 1000 sampleGame sampleBullet samplePlayer).1.hp ≤ MAX_HP :=
  hp_stays_in_range.2.1 1000 sampleGame sampleBullet samplePlayer
    (by norm_num [samplePlayer, mkNewPlayer, MAX_HP])
    (by norm_num [samplePlayer, mkNewPlayer, MAX_HP])

/-! ## Claim C5 -/

theorem wallX_none (b : Bullet) (hc : b.x < 0 ∨ b.x > MAP_WIDTH)
    (hb : ¬ b.bounces < MAX_BOUNCES) : wallX b = none := by
  unfold wallX; rw [if_pos hc, if_neg hb]

theorem wallX_id (b : Bullet) (hc : ¬ (b.x < 0 ∨ b.x > MAP_WIDTH)) :
    wallX b = some (b, false) := by
  unfold wallX; rw [if_neg hc]

theorem wallY_none (b : Bullet) (hc : b.y < 0 ∨ b.y > MAP_HEIGHT)
    (hb : ¬ b.bounces < MAX_BOUNCES) : wallY b = none := by
  unfold wallY; rw [if_pos hc, if_neg hb]

theorem wallX_bounces_le (b b1 : Bullet) (bb : Bool)
    (hb : b.bounces ≤ MAX_BOUNCES) (h : wallX b = some (b1, bb)) :
    b1.bounces ≤ MAX_BOUNCES := by
  unfold wallX at h
  split at h
  · split at h
    · rename_i hcross hlt
      simp only [Option.some.injEq, Prod.mk.injEq] at h
      obtain ⟨h1, -⟩ := h
      subst h1
      show b.bounces + 1 ≤ MAX_BOUNCES
      simp only [MAX_BOUNCES] at hlt ⊢
      omega
    · exact absurd h (by simp)
  · simp only [Option.some.injEq, Prod.mk.injEq] at h
    obtain ⟨h1, -⟩ := h
    rw [← h1]
    exact hb

theorem wallY_bounces_le (b b1 : Bullet) (bb : Bool)
    (hb : b.bounces ≤ MAX_BOUNCES) (h : wallY b = some (b1, bb)) :
    b1.bounces ≤ MAX_BOUNCES := by
  unfold wallY at h
  split at h
  · split at h
    · rename_i hcross hlt
      simp only [Option.some.injEq, Prod.mk.injEq] at h
      obtain ⟨h1, -⟩ := h
      subst h1
      show b.bounces + 1 ≤ MAX_BOUNCES
      simp only [MAX_BOUNCES] at hlt ⊢
      omega
    · exact absurd h (by simp)
  · simp only [Option.some.injEq, Prod.mk.injEq] at h
    obtain ⟨h1, -⟩ := h
    rw [← h1]
    exact hb

/-- Unfolding equation for `updateBullet` with the moved bullet
substituted. -/
theorem updateBullet_eq (now : ℕ) (b0 : Bullet) :
    updateBullet now b0 =
      match wallX { b0 with x := b0.x + b0.vx, y := b0.y + b0.vy } with
      | none => none
      | some (b1, bounced1) =>
        match wallY b1 with
        | none => none
        | some (b2, bounced2) =>
          let b3 := if bounced1 || bounced2 then
                      { b2 with angle := Complex.arg ⟨b2.vx, b2.vy⟩ }
                    else b2
          if b3.createdAt ≠ 0 ∧ ¬(now - b3.createdAt < BULLET_MAX_AGE) then none
          else some b3 := rfl

/-- C5: the bounce count of every bullet surviving the wall pass stays
at most `MAX_BOUNCES = 3`; a bullet already at the cap is removed on its
next boundary crossing instead of being reflected; and every bullet
created by a shoot request starts with bounce count 0 — so in every
reachable room state the bounce count never exceeds 3. -/
theorem bullet_bounce_cap :
    (∀ (now : ℕ) (b b' : Bullet), b.bounces ≤ MAX_BOUNCES →
       updateBullet now b = some b' → b'.bounces ≤ MAX_BOUNCES) ∧
    (∀ (now : ℕ) (b : Bullet), b.bounces = MAX_BOUNCES →
       (b.x + b.vx < 0 ∨ b.x + b.vx > MAP_WIDTH ∨
        b.y + b.vy < 0 ∨ b.y + b.vy > MAP_HEIGHT) →
       updateBullet now b = none) ∧
    (∀ (now : ℕ) (sockId : String) (p : Player) (angle : ℝ) (b : Bullet),
       b ∈ mkShotBullets now sockId p angle → b.bounces = 0) := by
  refine ⟨?_, ?_, ?_⟩
  · intro now b b' hb h
    rw [updateBullet_eq] at h
    rcases hw1 : wallX { b with x := b.x + b.vx, y := b.y + b.vy } with _ | ⟨b1, bb1⟩
    · rw [hw1] at h; simp at h
    · rw [hw1] at h
      dsimp only at h
      rcases hw2 : wallY b1 with _ | ⟨b2, bb2⟩
      · rw [hw2] at h; simp at h
      · rw [hw2] at h
        dsimp only at h
        have hb1 : b1.bounces ≤ MAX_BOUNCES :=
          wallX_bounces_le _ _ _ (by simpa using hb) hw1
        have hb2 : b2.bounces ≤ MAX_BOUNCES := wallY_bounces_le _ _ _ hb1 hw2
        split at h
        · split at h
          · exact absurd h (by simp)
          · simp only [Option.some.injEq] at h
            rw [← h]; exact hb2
        · split at h
          · exact absurd h (by simp)
          · simp only [Option.some.injEq] at h
            rw [← h]; exact hb2
  · intro now b hb hcross
    rw [updateBullet_eq]
    set m : Bullet := { b with x := b.x + b.vx, y := b.y + b.vy } with hm
    have hmb : m.bounces = MAX_BOUNCES := hb
    by_cases hx : m.x < 0 ∨ m.x > MAP_WIDTH
    · rw [wallX_none m hx (by omega)]
    · rw [wallX_id m hx]
      have hy : m.y < 0 ∨ m.y > MAP_HEIGHT := by
        rcases hcross with h | h | h | h
        · exact absurd (Or.inl h) hx
        · exact absurd (Or.inr h) hx
        · exact Or.inl h
        · exact Or.inr h
      dsimp only
      rw [wallY_none m hy (by omega)]
  · intro now sockId p angle b hmem
    unfold mkShotBullets at hmem
    simp only [List.mem_map, List.mem_range] at hmem
    obtain ⟨i, -, rfl⟩ := hmem
    rfl

/-- A bullet already at the bounce cap about to cross the right wall. -/
def sampleCapBullet : Bullet :=
  { x := 999, y := 360, vx := 10, vy := 0, angle := 0, owner := "p2",
    color := "#ffff00", createdAt := 1000, bounces := 3 }

/-- Witness for C5: the capped bullet is removed on its boundary
crossing. -/
theorem bullet_bounce_cap_witness :
    updateBullet 2000 sampleCapBullet = none :=
  bullet_bounce_cap.2.1 2000 sampleCapBullet rfl
    (by norm_num [sampleCapBullet, MAP_WIDTH, MAP_HEIGHT])

/-! ## Claim C6 -/

/-- C6: applying a timed power-up type to a player for whom that effect
is already active only resets the effect's expiry timestamp to
`now + duration` (the flag stays a single boolean), so collecting the
same type twice is the same as collecting it once at the later time,
and the speed multiplier (and damage multiplier) used by the simulation
is the same whether the power-up was collected once or several times. -/
theorem powerup_no_stacking :
    (∀ (ty : PowerUpKind) (now now2 : ℕ) (p : Player), ty ≠ .HEALTH_PACK →
       applyPowerUp now2 ty (applyPowerUp now ty p) = applyPowerUp now2 ty p) ∧
    (∀ (now : ℕ) (p : Player), p.speedBoost = true →
       applyPowerUp now .SPEED p
         = { p with speedBoostExpireTime := some (now + 5000) }) ∧
    (∀ (now : ℕ) (p : Player), p.rapidFire = true →
       applyPowerUp now .RAPID_FIRE p
         = { p with rapidFireExpireTime := some (now + 5000) }) ∧
    (∀ (now : ℕ) (p : Player), p.shield = true →
       applyPowerUp now .SHIELD p
         = { p with shieldExpireTime := some (now + 5000) }) ∧
    (∀ (now : ℕ) (p : Player), p.damageBoost = true →
       applyPowerUp now .DAMAGE_BOOST p
         = { p with damageBoostExpireTime := some (now + 10000) }) ∧
    (∀ (now now2 : ℕ) (p : Player),
       maxSpeedOf (applyPowerUp now2 .SPEED (applyPowerUp now .SPEED p))
         = maxSpeedOf (applyPowerUp now .SPEED p)) ∧
    (∀ (now now2 : ℕ) (sh t : Player),
       damageCalc (some (applyPowerUp now2 .DAMAGE_BOOST
           (applyPowerUp now .DAMAGE_BOOST sh))) t
         = damageCalc (some (applyPowerUp now .DAMAGE_BOOST sh)) t) := by
  refine ⟨?_, ?_, ?_, ?_, ?_, ?_, ?_⟩
  · intro ty now now2 p hty
    cases ty with
    | SPEED => rfl
    | RAPID_FIRE => rfl
    | SHIELD => rfl
    | DAMAGE_BOOST => rfl
    | HEALTH_PACK => exact absurd rfl hty
  · intro now p h
    cases p
    simp_all [applyPowerUp, jsOr, puDuration]
  · intro now p h
    cases p
    simp_all [applyPowerUp, jsOr, puDuration]
  · intro now p h
    cases p
    simp_all [applyPowerUp, jsOr, puDuration]
  · intro now p h
    cases p
    simp_all [applyPowerUp, jsOr, puDuration]
  · intro now now2 p; rfl
  · intro now now2 sh t; rfl

/-- Witness for C6: a double SPEED pickup collapses to the later single
pickup on the sample player. -/
theorem powerup_no_stacking_witness :
    applyPowerUp 2000 .SPEED (applyPowerUp 1000 .SPEED samplePlayer)
      = applyPowerUp 2000 .SPEED samplePlayer :=
  powerup_no_stacking.1 .SPEED 1000 2000 samplePlayer (by decide)

/-! ## Claim C7 -/

theorem getD_mem_keys (n : ℕ) (h : n < 5) :
    POWER_UP_KEYS.getD n .SPEED ∈ POWER_UP_KEYS := by
  interval_cases n <;> decide

/-- C7: each tick a room spawns exactly one power-up — of one of the
five types, at an in-bounds position — precisely when more than 7 s
elapsed since the room's last spawn and the room holds fewer than 6
power-ups; otherwise the room's power-up set is unchanged. -/
theorem powerup_spawn_iff (now last : ℕ) (g : Game) (o : SpawnOracle)
    (h1 : 0 ≤ o.rType) (h2 : o.rType < 1)
    (h3 : 0 ≤ o.rX) (h4 : o.rX < 1) (h5 : 0 ≤ o.rY) (h6 : o.rY < 1) :
    (7000 < now - last ∧ g.powerUps.length < 6 →
       (spawnTick now last g o).1.powerUps = g.powerUps ++ [spawnPowerUp now o] ∧
       (spawnTick now last g o).1.powerUps.length = g.powerUps.length + 1 ∧
       (spawnTick now last g o).2 = now ∧
       (spawnPowerUp now o).type ∈ POWER_UP_KEYS ∧
       20 ≤ (spawnPowerUp now o).x ∧ (spawnPowerUp now o).x ≤ MAP_WIDTH - 20 ∧
       20 ≤ (spawnPowerUp now o).y ∧ (spawnPowerUp now o).y ≤ MAP_HEIGHT - 20) ∧
    (¬(7000 < now - last ∧ g.powerUps.length < 6) →
       (spawnTick now last g o).1 = g) := by
  constructor
  · rintro ⟨hel, hcap⟩
    have hspawn : spawnTick now last g o
        = ({ g with powerUps := g.powerUps ++ [spawnPowerUp now o] }, now) := by
      unfold spawnTick; rw [if_pos hel, if_pos hcap]
    have hlen : ((POWER_UP_KEYS.length : ℕ) : ℝ) = 5 := by norm_num [POWER_UP_KEYS]
    have htype : (spawnPowerUp now o).type
        = POWER_UP_KEYS.getD (⌊o.rType * (POWER_UP_KEYS.length : ℝ)⌋).toNat .SPEED := rfl
    have hidx : (⌊o.rType * (POWER_UP_KEYS.length : ℝ)⌋).toNat < 5 := by
      have hup : o.rType * (POWER_UP_KEYS.length : ℝ) < ((5 : ℤ) : ℝ) := by
        rw [hlen]; push_cast; nlinarith
      have hfl := Int.floor_lt.mpr hup
      have hlo : (0 : ℝ) ≤ o.rType * (POWER_UP_KEYS.length : ℝ) := by
        rw [hlen]; nlinarith
      have h0i := Int.floor_nonneg.mpr hlo
      omega
    refine ⟨by rw [hspawn], by rw [hspawn]; simp, by rw [hspawn], ?_, ?_, ?_, ?_, ?_⟩
    · rw [htype]; exact getD_mem_keys _ hidx
    · show 20 ≤ o.rX * (MAP_WIDTH - 40) + 20
      norm_num [MAP_WIDTH]; nlinarith
    · show o.rX * (MAP_WIDTH - 40) + 20 ≤ MAP_WIDTH - 20
      norm_num [MAP_WIDTH]; nlinarith
    · show 20 ≤ o.rY * (MAP_HEIGHT - 40) + 20
      norm_num [MAP_HEIGHT]; nlinarith
    · show o.rY * (MAP_HEIGHT - 40) + 20 ≤ MAP_HEIGHT - 20
      norm_num [MAP_HEIGHT]; nlinarith
  · intro hnot
    unfold spawnTick
    by_cases hel : 7000 < now - last
    · have hcap : ¬ g.powerUps.length < 6 := fun hc => hnot ⟨hel, hc⟩
      rw [if_pos hel, if_neg hcap]
    · rw [if_neg hel]

/-- The random draws of the witness spawn. -/
def sampleOracle : SpawnOracle := ⟨1 / 2, 1 / 2, 1 / 2, 0⟩

/-! ## Claim C8 -/

/-- Counterexample to C8 as stated: a `join` referencing a nonexistent
room is not silent — it emits an `error` event ("Game not found"),
though it performs no state mutation. -/
theorem join_missing_room_emits_error :
    (joinHandler [] "s1" (some ⟨"game_1", "bob"⟩) 0 0 "#fff" 0).1 = [] ∧
    (joinHandler [] "s1" (some ⟨"game_1", "bob"⟩) 0 0 "#fff" 0).2
      = [SEvent.errorEv "Game not found"] ∧
    (joinHandler [] "s1" (some ⟨"game_1", "bob"⟩) 0 0 "#fff" 0).2 ≠ [] := by
  refine ⟨?_, ?_, ?_⟩ <;> simp [joinHandler]

/-- C8 amended: `input`, `shoot` and `chat` operations referencing a
nonexistent room or a player not present in their claimed room are
silently ignored — no state mutation and no event; a `join` referencing
a nonexistent room performs no state mutation but responds with an
`error` event rather than being silent. -/
theorem silently_ignored_amended :
    (∀ (games : List (String × Game)) (sockId : String) (req : JoinReq)
        (rx ry : ℝ) (color : String) (now : ℕ),
       req.serverId ≠ "" → games.lookup req.serverId = none →
       joinHandler games sockId (some req) rx ry color now
         = (games, [SEvent.errorEv "Game not found"])) ∧
    (∀ (games : List (String × Game)) (gid : Option String) (sockId : String)
        (inputs : Option (List Input)),
       noSuchPlayer games gid sockId →
       inputHandler games gid sockId inputs = games) ∧
    (∀ (games : List (String × Game)) (gid : Option String) (sockId : String)
        (angle : ℝ) (now : ℕ),
       noSuchPlayer games gid sockId →
       shootHandler games gid sockId angle now = games) ∧
    (∀ (games : List (String × Game)) (gid : Option String) (sockId : String)
        (text : String) (now : ℕ),
       noSuchPlayer games gid sockId →
       chatHandler games gid sockId text now = (games, [])) := by
  refine ⟨?_, ?_, ?_, ?_⟩
  · intro games sockId req rx ry color now hne hlook
    unfold joinHandler
    dsimp only
    rw [if_neg hne, hlook]
  · intro games gid sockId inputs hno
    unfold noSuchPlayer at hno
    rcases gid with _ | gid
    · rfl
    · unfold inputHandler
      dsimp only at hno ⊢
      rcases hl : games.lookup gid with _ | g
      · rfl
      · rw [hl] at hno
        dsimp only at hno ⊢
        rw [hno]
  · intro games gid sockId angle now hno
    unfold noSuchPlayer at hno
    rcases gid with _ | gid
    · rfl
    · unfold shootHandler
      dsimp only at hno ⊢
      rcases hl : games.lookup gid with _ | g
      · rfl
      · rw [hl] at hno
        dsimp only at hno ⊢
        rw [hno]
  · intro games gid sockId text now hno
    unfold noSuchPlayer at hno
    rcases gid with _ | gid
    · rfl
    · unfold chatHandler
      dsimp only at hno ⊢
      rcases hl : games.lookup gid with _ | g
      · rfl
      · rw [hl] at hno
        dsimp only at hno ⊢
        rw [hno]

/-- Witness for C8 amended: an input batch for an unknown room id leaves
the room table unchanged. -/
theorem silently_ignored_amended_witness :
    inputHandler [] (some "game_9") "p1" (some []) = [] :=
  silently_ignored_amended.2.1 [] (some "game_9") "p1" (some []) trivial

/-- Witness for C7: with 8 s elapsed and an empty power-up set, one
power-up is spawned. -/
theorem powerup_spawn_iff_witness :
    (7000 < 8000 - 0 ∧ sampleGame.powerUps.length < 6 →
       (spawnTick 8000 0 sampleGame sampleOracle).1.powerUps
         = sampleGame.powerUps ++ [spawnPowerUp 8000 sampleOracle] ∧
       (spawnTick 8000 0 sampleGame sampleOracle).1.powerUps.length
         = sampleGame.powerUps.length + 1 ∧
       (spawnTick 8000 0 sampleGame sampleOracle).2 = 8000 ∧
       (spawnPowerUp 8000 sampleOracle).type ∈ POWER_UP_KEYS ∧
       20 ≤ (spawnPowerUp 8000 sampleOracle).x ∧
       (spawnPowerUp 8000 sampleOracle).x ≤ MAP_WIDTH - 20 ∧
       20 ≤ (spawnPowerUp 8000 sampleOracle).y ∧
       (spawnPowerUp 8000 sampleOracle).y ≤ MAP_HEIGHT - 20) ∧
    (¬(7000 < 8000 - 0 ∧ sampleGame.powerUps.length < 6) →
       (spawnTick 8000 0 sampleGame sampleOracle).1 = sampleGame) :=
  powerup_spawn_iff 8000 0 sampleGame sampleOracle
    (by norm_num [sampleOracle]) (by norm_num [sampleOracle])
    (by norm_num [sampleOracle]) (by norm_num [sampleOracle])
    (by norm_num [sampleOracle]) (by norm_num [sampleOracle])

/-! ## Claim C9 -/

/-- Whenever the flag direction is nonzero, the normalized-and-scaled
target velocity has squared norm exactly `maxSpeedOf p ^ 2`. -/
theorem targetVel_norm (p : Player) (f : Flags)
    (h : (targetDir f).1 ≠ 0 ∨ (targetDir f).2 ≠ 0) :
    (targetVel p f).1 ^ 2 + (targetVel p f).2 ^ 2 = maxSpeedOf p ^ 2 := by
  have hsum : 0 < (targetDir f).1 * (targetDir f).1 + (targetDir f).2 * (targetDir f).2 := by
    rcases h with h | h
    · have hp := mul_self_pos.mpr h
      nlinarith [mul_self_nonneg (targetDir f).2]
    · have hp := mul_self_pos.mpr h
      nlinarith [mul_self_nonneg (targetDir f).1]
  have hm : inputMag f
      = Real.sqrt ((targetDir f).1 * (targetDir f).1 + (targetDir f).2 * (targetDir f).2) := rfl
  have hmpos : 0 < inputMag f := by rw [hm]; exact Real.sqrt_pos.mpr hsum
  have hmsq : inputMag f ^ 2
      = (targetDir f).1 * (targetDir f).1 + (targetDir f).2 * (targetDir f).2 := by
    rw [hm, Real.sq_sqrt hsum.le]
  have hval : targetVel p f
      = ((targetDir f).1 / inputMag f * maxSpeedOf p,
         (targetDir f).2 / inputMag f * maxSpeedOf p) := by
    unfold targetVel
    dsimp only
    rw [if_pos hmpos]
  rw [hval]
  have hne : inputMag f ≠ 0 := ne_of_gt hmpos
  field_simp
  nlinarith [hmsq]

/-- C9 amended: the target-direction vector computed from the movement
flags is normalized to unit length before being scaled by the player's
max speed, so the *target* speed is the same in every input direction —
a diagonal input's target velocity never has greater magnitude than a
straight input's.  (As stated, the claim fails for the post-step
velocity: per-axis acceleration lets one diagonal step from rest exceed
one straight step, see the counterexample.) -/
theorem target_speed_normalized (p : Player) (f g : Flags)
    (hdiag : (targetDir f).1 ≠ 0 ∧ (targetDir f).2 ≠ 0)
    (hstraight : ((targetDir g).1 = 0 ∧ (targetDir g).2 ≠ 0) ∨
                 ((targetDir g).1 ≠ 0 ∧ (targetDir g).2 = 0)) :
    (targetVel p f).1 ^ 2 + (targetVel p f).2 ^ 2 = maxSpeedOf p ^ 2 ∧
    (targetVel p g).1 ^ 2 + (targetVel p g).2 ^ 2 = maxSpeedOf p ^ 2 ∧
    ¬ ((targetVel p g).1 ^ 2 + (targetVel p g).2 ^ 2
        < (targetVel p f).1 ^ 2 + (targetVel p f).2 ^ 2) := by
  have h1 := targetVel_norm p f (Or.inl hdiag.1)
  have h2 : (targetVel p g).1 ^ 2 + (targetVel p g).2 ^ 2 = maxSpeedOf p ^ 2 := by
    rcases hstraight with ⟨-, h⟩ | ⟨h, -⟩
    · exact targetVel_norm p g (Or.inr h)
    · exact targetVel_norm p g (Or.inl h)
  exact ⟨h1, h2, by rw [h1, h2]; exact lt_irrefl _⟩

/-- The pure-right input sample (`d` only), matching `sampleInput` in
everything but the flags. -/
def sampleStraightInput : Input :=
  { inputs := ⟨false, false, false, true⟩, dt := 1 / 60,
    rotation := 0, turretRotation := 0, seq := 13 }

theorem applyInput_vx_proj (p : Player) (i : Input) :
    (applyInput p i).vx
      = (clampAxis MAP_WIDTH (rawPos p i).1 (applyVel p i).1).2 := rfl

theorem applyInput_vy_proj (p : Player) (i : Input) :
    (applyInput p i).vy
      = (clampAxis MAP_HEIGHT (rawPos p i).2 (applyVel p i).2).2 := rfl

/-- One diagonal (`w`+`d`) integration step from the fresh sample player
at rest yields velocity `(10, -10)`. -/
theorem applyVel_sample_diag :
    applyVel samplePlayer sampleInput = (10, -10) := by
  have hsq2pos : (0 : ℝ) < Real.sqrt 2 := Real.sqrt_pos.mpr (by norm_num)
  have hsq2sq : Real.sqrt 2 ^ 2 = 2 := Real.sq_sqrt (by norm_num)
  have hsq2le : Real.sqrt 2 ≤ 6 := by nlinarith [Real.sqrt_nonneg 2]
  have hdt : dtOf sampleInput = 1 / 60 := by norm_num [dtOf, jsOrR, sampleInput]
  have hdir : targetDir sampleInput.inputs = (1, -1) := by
    norm_num [targetDir, sampleInput]
  have hmag : inputMag sampleInput.inputs = Real.sqrt 2 := by
    unfold inputMag
    rw [hdir]
    norm_num
  have hms : maxSpeedOf samplePlayer = 60 := by
    norm_num [maxSpeedOf, samplePlayer, mkNewPlayer, TANK_MAX_SPEED]
  have hdiv_pos : (0 : ℝ) < 60 / Real.sqrt 2 := div_pos (by norm_num) hsq2pos
  have h10 : (10 : ℝ) ≤ 60 / Real.sqrt 2 := by
    rw [le_div_iff₀ hsq2pos]; nlinarith
  have htv : targetVel samplePlayer sampleInput.inputs
      = (60 / Real.sqrt 2, -(60 / Real.sqrt 2)) := by
    unfold targetVel
    dsimp only
    rw [hmag, if_pos hsq2pos, hdir, hms]
    dsimp only
    rw [Prod.mk.injEq]
    constructor <;> ring
  have hpvx : samplePlayer.vx = 0 := rfl
  have hpvy : samplePlayer.vy = 0 := rfl
  have hAA : TANK_ACCELERATION * (1 / 60 : ℝ) = 10 := by
    norm_num [TANK_ACCELERATION]
  unfold applyVel
  dsimp only
  rw [hdt, htv, hmag, if_pos hsq2pos]
  dsimp only
  rw [hpvx, hpvy, hAA, sub_zero, sub_zero, abs_neg, abs_of_pos hdiv_pos,
    if_neg (not_lt.mpr h10), if_neg (not_lt.mpr h10),
    Real.sign_of_pos hdiv_pos, Real.sign_of_neg (neg_lt_zero.mpr hdiv_pos)]
  rw [Prod.mk.injEq]
  constructor <;> norm_num

/-- One straight (`d` only) integration step from the fresh sample
player at rest yields velocity `(10, 0)`. -/
theorem applyVel_sample_straight :
    applyVel samplePlayer sampleStraightInput = (10, 0) := by
  have hdt : dtOf sampleStraightInput = 1 / 60 := by
    norm_num [dtOf, jsOrR, sampleStraightInput]
  have hdir : targetDir sampleStraightInput.inputs = (1, 0) := by
    norm_num [targetDir, sampleStraightInput]
  have hmag : inputMag sampleStraightInput.inputs = 1 := by
    unfold inputMag
    rw [hdir]
    norm_num
  have hms : maxSpeedOf samplePlayer = 60 := by
    norm_num [maxSpeedOf, samplePlayer, mkNewPlayer, TANK_MAX_SPEED]
  have htv : targetVel samplePlayer sampleStraightInput.inputs = (60, 0) := by
    unfold targetVel
    dsimp only
    rw [hmag, if_pos one_pos, hdir, hms]
    dsimp only
    rw [Prod.mk.injEq]
    constructor <;> ring
  have hpvx : samplePlayer.vx = 0 := rfl
  have hpvy : samplePlayer.vy = 0 := rfl
  have hAA : TANK_ACCELERATION * (1 / 60 : ℝ) = 10 := by
    norm_num [TANK_ACCELERATION]
  unfold applyVel
  dsimp only
  rw [hdt, htv, hmag, if_pos one_pos]
  dsimp only
  rw [hpvx, hpvy, hAA, sub_zero, sub_zero]
  rw [if_neg (by rw [abs_of_pos] <;> norm_num), if_pos (by norm_num)]
  rw [Real.sign_of_pos (by norm_num : (0:ℝ) < 60)]
  rw [Prod.mk.injEq]
  constructor <;> norm_num

/-- Counterexample to C9 as stated: from the fresh sample player at
rest, one diagonal (`w`+`d`) step of the Physics Integrator produces
velocity `(10, -10)` (squared magnitude 200) while one straight (`d`)
step produces `(10, 0)` (squared magnitude 100) — the diagonal input
produces a velocity of strictly greater magnitude, because acceleration
is clamped per axis rather than by vector norm. -/
theorem diagonal_step_exceeds_straight :
    (applyInput samplePlayer sampleStraightInput).vx ^ 2
        + (applyInput samplePlayer sampleStraightInput).vy ^ 2
      < (applyInput samplePlayer sampleInput).vx ^ 2
        + (applyInput samplePlayer sampleInput).vy ^ 2 := by
  have hpx : samplePlayer.x = 500 := by
    norm_num [samplePlayer, mkNewPlayer, MAP_WIDTH]
  have hpy : samplePlayer.y = 360 := by
    norm_num [samplePlayer, mkNewPlayer, MAP_HEIGHT]
  have hdtd : dtOf sampleInput = 1 / 60 := by
    norm_num [dtOf, jsOrR, sampleInput]
  have hdts : dtOf sampleStraightInput = 1 / 60 := by
    norm_num [dtOf, jsOrR, sampleStraightInput]
  have hvx_d : (applyInput samplePlayer sampleInput).vx = 10 := by
    rw [applyInput_vx_proj]
    unfold rawPos
    rw [applyVel_sample_diag, hdtd, hpx]
    norm_num [clampAxis, TANK_RADIUS, MAP_WIDTH]
  have hvy_d : (applyInput samplePlayer sampleInput).vy = -10 := by
    rw [applyInput_vy_proj]
    unfold rawPos
    rw [applyVel_sample_diag, hdtd, hpy]
    norm_num [clampAxis, TANK_RADIUS, MAP_HEIGHT]
  have hvx_s : (applyInput samplePlayer sampleStraightInput).vx = 10 := by
    rw [applyInput_vx_proj]
    unfold rawPos
    rw [applyVel_sample_straight, hdts, hpx]
    norm_num [clampAxis, TANK_RADIUS, MAP_WIDTH]
  have hvy_s : (applyInput samplePlayer sampleStraightInput).vy = 0 := by
    rw [applyInput_vy_proj]
    unfold rawPos
    rw [applyVel_sample_straight, hdts, hpy]
    norm_num [clampAxis, TANK_RADIUS, MAP_HEIGHT]
  rw [hvx_d, hvy_d, hvx_s, hvy_s]
  norm_num

/-- Witness for the amended C9: the up-right diagonal against the pure
right input on the sample player. -/
theorem target_speed_normalized_witness :
    (targetVel samplePlayer ⟨true, false, false, true⟩).1 ^ 2
        + (targetVel samplePlayer ⟨true, false, false, true⟩).2 ^ 2
      = maxSpeedOf samplePlayer ^ 2 ∧
    (targetVel samplePlayer ⟨false, false, false, true⟩).1 ^ 2
        + (targetVel samplePlayer ⟨false, false, false, true⟩).2 ^ 2
      = maxSpeedOf samplePlayer ^ 2 ∧
    ¬ ((targetVel samplePlayer ⟨false, false, false, true⟩).1 ^ 2
        + (targetVel samplePlayer ⟨false, false, false, true⟩).2 ^ 2
      < (targetVel samplePlayer ⟨true, false, false, true⟩).1 ^ 2
        + (targetVel samplePlayer ⟨true, false, false, true⟩).2 ^ 2) :=
  target_speed_normalized samplePlayer ⟨true, false, false, true⟩
    ⟨false, false, false, true⟩
    (by constructor <;> norm_num [targetDir])
    (Or.inr (by constructor <;> norm_num [targetDir]))

/-! ## Claim C10 -/

/-- The hp written by hit resolution, whatever the branch. -/
theorem resolveHit_hp_eq (now : ℕ) (g : Game) (b : Bullet) (t : Player) :
    (resolveHit now g b t).1.hp
      = max 0 (t.hp - damageCalc (g.players.lookup b.owner) t) := by
  unfold resolveHit
  dsimp only
  split <;> rfl

/-- C10: when a bullet's owner is no longer present in the room, a hit
by that bullet still applies the base damage (no damage-boost
multiplier), can still mark the target dead and schedule its respawn,
but no score entry of any player is changed.  (A disconnect deletes both
the player entry and the score entry, so both lookups miss.) -/
theorem orphan_bullet_hit (now : ℕ) (g : Game) (b : Bullet) (t : Player)
    (hpl : g.players.lookup b.owner = none)
    (hsc : g.scores.lookup b.owner = none) :
    (resolveHit now g b t).1.hp
      = max 0 (t.hp - (if t.shield then 0 else BULLET_DAMAGE)) ∧
    (resolveHit now g b t).2 = g.scores ∧
    (max 0 (t.hp - (if t.shield then 0 else BULLET_DAMAGE)) ≤ 0 →
      (resolveHit now g b t).1.dead = true ∧
      (resolveHit now g b t).1.respawnTime = now + RESPAWN_TIME) := by
  have hdmg : damageCalc (g.players.lookup b.owner) t
      = if t.shield then 0 else BULLET_DAMAGE := by
    rw [hpl]; rfl
  refine ⟨?_, ?_, ?_⟩
  · rw [resolveHit_hp_eq, hdmg]
  · unfold resolveHit
    dsimp only
    simp only [hsc, Option.isSome_none]
    split <;> rfl
  · intro hle
    unfold resolveHit
    dsimp only
    rw [hdmg, if_pos hle]
    exact ⟨rfl, rfl⟩

/-- Witness for C10: the sample bullet's owner is absent from the sample
room's player and score tables. -/
theorem orphan_bullet_hit_witness :
    (resolveHit 1000 sampleGame sampleBullet samplePlayer).1.hp
      = max 0 (samplePlayer.hp
          - (if samplePlayer.shield then 0 else BULLET_DAMAGE)) ∧
    (resolveHit 1000 sampleGame sampleBullet samplePlayer).2
      = sampleGame.scores ∧
    (max 0 (samplePlayer.hp
        - (if samplePlayer.shield then 0 else BULLET_DAMAGE)) ≤ 0 →
      (resolveHit 1000 sampleGame sampleBullet samplePlayer).1.dead = true ∧
      (resolveHit 1000 sampleGame sampleBullet samplePlayer).1.respawnTime
        = 1000 + RESPAWN_TIME) :=
  orphan_bullet_hit 1000 sampleGame sampleBullet samplePlayer rfl rfl

end
